import Mathlib

/-!
Verification development for the printed-electronics material calculator
(`src/inks.py`).  The Python source is shallowly embedded: Python floats are
modelled as rationals (`ℚ`), the `pint` unit registry is modelled by exact
SI conversion factors for the fixed unit set the program uses, `numpy`
array operations become `List ℚ` operations, and the mutable per-category
index map of `Material.indexer` becomes explicit state threaded through the
catalog build.
-/

/-- Unit tags carried by `Value` quantities.  The source builds three pint
quantities: `BR = 1 * u.uohm * u.cm`, `SR = 1 * u.mohm`, `TH = 1 * u.micron`. -/
inductive UnitTag where
  | uohm_cm
  | mohm
  | micron
deriving DecidableEq

/-- Conversion factor: one µΩ·cm expressed in Ω·m (10⁻⁶ Ω · 10⁻² m). -/
def uohm_cm_in_ohm_m : ℚ := 1 / 100000000

/-- Conversion factor: one µm expressed in m. -/
def micron_in_m : ℚ := 1 / 1000000

/-- Conversion factor: one mΩ expressed in Ω. -/
def mohm_in_ohm : ℚ := 1 / 1000

/-- Embedding of the `Value` class: a magnitude with a min/max range and a
unit tag.  `value`, `valmin`, `valmax` are the magnitudes of the pint
quantities stored by `Value.__init__`. -/
structure Value where
  units : UnitTag
  value : ℚ
  valmin : ℚ
  valmax : ℚ
deriving DecidableEq

/-- Embedding of `Value.__init__(self, units, val1, val2=None, val3=None)`.
With only `val1`: value = valmin = valmax = val1.  With `val2` and `val3`:
value = val1, valmin = val2, valmax = val3 (raw, no reordering).  With only
`val2`: valmin = val1, valmax = val2, value = 0.5 * (val1 + val2). -/
def Value.init (units : UnitTag) (val1 : ℚ) (val2 val3 : Option ℚ) : Value :=
  match val2, val3 with
  | none, _ => ⟨units, val1, val1, val1⟩
  | some v2, some v3 => ⟨units, val1, v2, v3⟩
  | some v2, none => ⟨units, 0.5 * (val1 + v2), val1, v2⟩

/-- Embedding of `plus_or_minus(value, tolerance)`, which returns the tuple
`(value, value + tolerance, value - tolerance)` — note the order: the second
component (splatted into the min slot) is value PLUS tolerance. -/
def plus_or_minus (value tolerance : ℚ) : ℚ × ℚ × ℚ :=
  (value, value + tolerance, value - tolerance)

/-- Helper for the table rows written `V( BR, *PM( v, tol ) )`: the
`plus_or_minus` triple is splatted into the three positional values. -/
def value_pm (units : UnitTag) (p : ℚ × ℚ × ℚ) : Value :=
  Value.init units p.1 (some p.2.1) (some p.2.2)

/-- Embedding of the `Category` IntEnum (metal=1 … carbon=6). -/
inductive Category where
  | metal
  | flexo
  | inkjet
  | screen
  | aerosol
  | carbon
deriving DecidableEq

/-- Integer value of the `Category` IntEnum member. -/
def Category.toNat : Category → ℕ
  | .metal => 1
  | .flexo => 2
  | .inkjet => 3
  | .screen => 4
  | .aerosol => 5
  | .carbon => 6

/-- Embedding of the `PCB_weight` rows (weight in oz, thickness in µm and mils). -/
structure PCB_weight where
  weight : ℚ
  microns : ℚ
  mils : ℚ
deriving DecidableEq

/-- The `pcb_weights` table from the source. -/
def pcb_weights : List PCB_weight :=
  [ ⟨0.5, 17.4, 0.7⟩, ⟨1.0, 34.8, 1.4⟩, ⟨2.0, 69.6, 2.8⟩, ⟨4.0, 139.2, 5.6⟩ ]

/-- The thickness list `[ w.microns for w in pcb_weights ]` used for metals. -/
def pcb_microns : List ℚ := pcb_weights.map (fun w => w.microns)

/-- Embedding of the `Material` class fields (the always-`None` `r_sheet`
field of the active table is omitted).  `index` is the plot index assigned
by `Material.indexer` at construction. -/
structure Material where
  cat : Category
  name : String
  r_bulk : Value
  thickness : Value
  index : ℕ
deriving DecidableEq

/-- Lookup in the explicit association-list model of the `Material.index`
dict. -/
def indexFind : List (Category × ℕ) → Category → Option ℕ
  | [], _ => none
  | (c, n) :: rest, cat => if c = cat then some n else indexFind rest cat

/-- Update in the explicit association-list model of the `Material.index`
dict. -/
def indexSet : List (Category × ℕ) → Category → ℕ → List (Category × ℕ)
  | [], cat, n => [(cat, n)]
  | (c, m) :: rest, cat, n =>
      if c = cat then (cat, n) :: rest else (c, m) :: indexSet rest cat n

/-- Embedding of `Material.indexer(cat)`: first member of a category gets
`20 * cat` (catfactor = 20 times the IntEnum value), later members increment
the stored counter by 1 (catstep).  Returns the assigned index and the
updated map. -/
def indexer (st : List (Category × ℕ)) (cat : Category) : ℕ × List (Category × ℕ) :=
  match indexFind st cat with
  | some n => (n + 1, indexSet st cat (n + 1))
  | none => (20 * cat.toNat, indexSet st cat (20 * cat.toNat))

/-- One row of the `matls` table before index assignment. -/
structure MatRow where
  cat : Category
  name : String
  r_bulk : Value
  thickness : Value

/-- The active rows of the `matls` table (commented-out rows excluded), in
source order.  Metal bulk resistivities are written through
`plus_or_minus`, exactly as in the source. -/
def matls_rows : List MatRow :=
  [ ⟨.metal, "silver", value_pm .uohm_cm (plus_or_minus 1.60 0.1), Value.init .micron 34.8 (some 17.4) (some 69.6)⟩
  , ⟨.metal, "copper", value_pm .uohm_cm (plus_or_minus 1.70 0.1), Value.init .micron 34.8 (some 17.4) (some 69.6)⟩
  , ⟨.metal, "gold", value_pm .uohm_cm (plus_or_minus 2.40 0.1), Value.init .micron 34.8 (some 17.4) (some 69.6)⟩
  , ⟨.metal, "aluminium", value_pm .uohm_cm (plus_or_minus 2.80 0.1), Value.init .micron 34.8 (some 17.4) (some 69.6)⟩
  , ⟨.metal, "zinc", value_pm .uohm_cm (plus_or_minus 5.50 0.1), Value.init .micron 34.8 (some 17.4) (some 69.6)⟩
  , ⟨.metal, "nickel", value_pm .uohm_cm (plus_or_minus 7.00 0.1), Value.init .micron 34.8 (some 17.4) (some 69.6)⟩
  , ⟨.metal, "brass", value_pm .uohm_cm (plus_or_minus 7.50 0.1), Value.init .micron 34.8 (some 17.4) (some 69.6)⟩
  , ⟨.metal, "platinum", value_pm .uohm_cm (plus_or_minus 9.80 0.1), Value.init .micron 34.8 (some 17.4) (some 69.6)⟩
  , ⟨.metal, "iron", value_pm .uohm_cm (plus_or_minus 10.00 0.1), Value.init .micron 34.8 (some 17.4) (some 69.6)⟩
  , ⟨.metal, "tin", value_pm .uohm_cm (plus_or_minus 11.00 0.1), Value.init .micron 34.8 (some 17.4) (some 69.6)⟩
  , ⟨.metal, "lead", value_pm .uohm_cm (plus_or_minus 19.00 0.1), Value.init .micron 34.8 (some 17.4) (some 69.6)⟩
  , ⟨.flexo, "pfi-500", Value.init .uohm_cm 8.00 (some 7.00) (some 9.00), Value.init .micron 0.510 (some 0.120) (some 0.900)⟩
  , ⟨.flexo, "pfi-600", Value.init .uohm_cm 6.00 (some 5.00) (some 7.00), Value.init .micron 0.770 (some 0.140) (some 1.400)⟩
  , ⟨.flexo, "pfi-722", Value.init .uohm_cm 6.00 (some 5.00) (some 7.00), Value.init .micron 0.770 (some 0.140) (some 1.400)⟩
  , ⟨.flexo, "pfi-rsa6004", Value.init .uohm_cm 11.00 (some 10.00) (some 12.00), Value.init .micron 0.303 (some 0.125) (some 0.480)⟩
  , ⟨.flexo, "pfi-rsa6012", Value.init .uohm_cm 9.00 (some 8.00) (some 10.00), Value.init .micron 0.315 (some 0.130) (some 0.500)⟩
  , ⟨.inkjet, "ci-004", Value.init .uohm_cm 12.00 (some 12.00) (some 12.00), Value.init .micron 1.000 (some 0.200) (some 2.000)⟩
  , ⟨.inkjet, "ci-005", Value.init .uohm_cm 9.00 (some 9.00) (some 9.00), Value.init .micron 1.000 (some 0.200) (some 2.000)⟩
  , ⟨.inkjet, "ici-002hv", Value.init .uohm_cm 9.15 (some 7.50) (some 10.80), Value.init .micron 1.000 (some 0.200) (some 2.000)⟩
  , ⟨.inkjet, "js-a101a", Value.init .uohm_cm 19.40 (some 7.80) (some 31.00), Value.init .micron 1.000 (some 0.200) (some 2.000)⟩
  , ⟨.inkjet, "js-a102a", Value.init .uohm_cm 19.40 (some 7.80) (some 31.00), Value.init .micron 1.000 (some 0.200) (some 2.000)⟩
  , ⟨.inkjet, "js-a191", Value.init .uohm_cm 19.40 (some 7.80) (some 31.00), Value.init .micron 1.000 (some 0.200) (some 2.000)⟩
  , ⟨.inkjet, "js-b25hv", Value.init .uohm_cm 2.80 (some 2.80) (some 2.80), Value.init .micron 1.000 (some 0.200) (some 2.000)⟩
  , ⟨.screen, "cp-007", Value.init .uohm_cm 17.50 (some 17.50) (some 17.50), Value.init .micron 15.0 (some 5.0) (some 30.0)⟩
  , ⟨.screen, "cp-008", Value.init .uohm_cm 25.00 (some 25.00) (some 25.00), Value.init .micron 15.0 (some 5.0) (some 30.0)⟩
  , ⟨.screen, "cp-009", Value.init .uohm_cm 25.00 (some 25.00) (some 25.00), Value.init .micron 15.0 (some 5.0) (some 30.0)⟩
  , ⟨.screen, "hps-021lv", Value.init .uohm_cm 10.00 (some 10.00) (some 10.00), Value.init .micron 15.0 (some 5.0) (some 30.0)⟩
  , ⟨.screen, "hps-fg32", Value.init .uohm_cm 17.50 (some 11.00) (some 24.00), Value.init .micron 15.0 (some 5.0) (some 30.0)⟩
  , ⟨.screen, "hps-fg57b", Value.init .uohm_cm 19.00 (some 22.00) (some 27.00), Value.init .micron 15.0 (some 5.0) (some 30.0)⟩
  , ⟨.screen, "ici-021", Value.init .uohm_cm 50.00 (some 50.00) (some 50.00), Value.init .micron 15.0 (some 5.0) (some 30.0)⟩
  , ⟨.screen, "psi-211", Value.init .uohm_cm 9.00 (some 9.00) (some 9.00), Value.init .micron 15.0 (some 5.0) (some 30.0)⟩
  , ⟨.screen, "psi-219", Value.init .uohm_cm 11.00 (some 11.00) (some 11.00), Value.init .micron 15.0 (some 5.0) (some 30.0)⟩
  , ⟨.aerosol, "ci-006", Value.init .uohm_cm 5.10 (some 3.40) (some 6.80), Value.init .micron 2.00 (some 1.00) (some 5.00)⟩
  , ⟨.aerosol, "pspi-1000", Value.init .uohm_cm 8.50 (some 8.50) (some 8.50), Value.init .micron 2.00 (some 1.00) (some 5.00)⟩
  , ⟨.carbon, "jr-700lv", Value.init .uohm_cm 1200000 (some 1100000) (some 1300000), Value.init .micron 1.000 (some 0.200) (some 2.000)⟩
  , ⟨.carbon, "jr-700hv", Value.init .uohm_cm 550000 (some 520000) (some 850000), Value.init .micron 1.000 (some 0.200) (some 2.000)⟩
  , ⟨.carbon, "hpr-059", Value.init .uohm_cm 762000 (some 698000) (some 889000), Value.init .micron 20.000 (some 5.000) (some 50.000)⟩
  ]

/-- Catalog construction: one `Material` per row in order, with the plot
index assigned by `indexer`, threading the per-category counter state (the
`Material.index` class dict) through the traversal. -/
def buildCatalog (rows : List MatRow) : List Material :=
  (rows.foldl
    (fun (acc : List Material × List (Category × ℕ)) row =>
      let r := indexer acc.2 row.cat
      (acc.1 ++ [⟨row.cat, row.name, row.r_bulk, row.thickness, r.1⟩], r.2))
    ([], [])).1

/-- The `matls` catalog of the source. -/
def matls : List Material := buildCatalog matls_rows

/-- Embedding of the `byname` dict lookup (names in the table are unique,
so first-match lookup agrees with the dict comprehension). -/
def byname (name : String) : Option Material :=
  matls.find? (fun m => m.name == name)

/-- Embedding of `calc_sr(br, th)`: `((br*BR) / (th*TH)).to(SR.units)`,
i.e. bulk resistivity in µΩ·cm divided by thickness in µm, converted to mΩ
(per square).  The pint conversion is modelled by the exact SI factors. -/
def calc_sr (br th : ℚ) : ℚ :=
  ((br * uohm_cm_in_ohm_m) / (th * micron_in_m)) / mohm_in_ohm

/-- Embedding of the trace-resistance step
`tr = (calc_sr_units(br, th) * trace.squares).to(u.ohms)`: the sheet
resistance in mΩ/sq times the dimensionless squares ratio, converted to Ω. -/
def calc_tr (br th squares : ℚ) : ℚ :=
  (calc_sr br th * squares) * mohm_in_ohm

/-- Embedding of `np.linspace(start, stop, num)` over exact rationals:
`num` evenly spaced points from `start` to `stop` inclusive (for `num = 1`
numpy returns `[start]`; the formula below reduces to that since `x / 0 = 0`
in `ℚ`). -/
def linspace (start stop : ℚ) (num : ℕ) : List ℚ :=
  (List.range num).map (fun (i : ℕ) => start + (i : ℚ) * (stop - start) / ((num : ℚ) - 1))

/-- Embedding of `divide_interval(value, num)`: if the quantity's min and
max magnitudes are equal it returns `np.full(num, valmin)` (num copies),
otherwise `np.linspace(valmin, valmax, num)`. -/
def divide_interval (v : Value) (num : ℕ) : List ℚ :=
  if v.valmin = v.valmax then List.replicate num v.valmin
  else linspace v.valmin v.valmax num

/-- Thickness sample selection in `Plot2D.sheet_resistance`: metals use the
fixed pcb-weight list, other categories use `divide_interval(m.thickness, 10)`. -/
def thlist_sheet_resistance (m : Material) : List ℚ :=
  if m.cat = Category.metal then pcb_microns else divide_interval m.thickness 10

/-- Thickness sample selection in `Plot2D.thickness`: metals use the fixed
pcb-weight list, other categories use `divide_interval(m.thickness, 25)`. -/
def thlist_thickness (m : Material) : List ℚ :=
  if m.cat = Category.metal then pcb_microns else divide_interval m.thickness 25

/-- Thickness sample selection in `Plot2D.trace_resistance`: metals use the
fixed pcb-weight list, other categories use `divide_interval(m.thickness, 10)`. -/
def thlist_trace_resistance (m : Material) : List ℚ :=
  if m.cat = Category.metal then pcb_microns else divide_interval m.thickness 10

/-- Thickness sample selection in `Plot2D.trace_resistance_vs_width`: the
loop body always calls `divide_interval(m.thickness, 10)`, with no special
case for metals. -/
def thlist_trace_resistance_vs_width (m : Material) : List ℚ :=
  divide_interval m.thickness 10

/-- Embedding of `statistics.mean` over a rational population: undefined
(raises) on the empty list. -/
def stats_mean (xs : List ℚ) : Option ℚ :=
  if xs.length = 0 then none else some (xs.sum / xs.length)

/-- Sample variance underlying `statistics.stdev` (stdev is its square
root): undefined (raises `StatisticsError`, the spec's
`InsufficientDataError`) when the population has fewer than two elements. -/
def stats_variance (xs : List ℚ) : Option ℚ :=
  if xs.length < 2 then none
  else some ((xs.map (fun x => (x - xs.sum / xs.length) ^ 2)).sum / ((xs.length : ℚ) - 1))

/-- `s` is the sample standard deviation of `xs`: the nonnegative real
whose square is the sample variance (which must be defined). -/
def is_sample_stdev (xs : List ℚ) (s : ℝ) : Prop :=
  0 ≤ s ∧ ∃ v : ℚ, stats_variance xs = some v ∧ s ^ 2 = (v : ℝ)

/-- Embedding of Python `min` over a nonempty list. -/
def py_min : List ℚ → Option ℚ
  | [] => none
  | x :: xs => some (xs.foldl min x)

/-- Embedding of Python `max` over a nonempty list. -/
def py_max : List ℚ → Option ℚ
  | [] => none
  | x :: xs => some (xs.foldl max x)

/-- Result of `np.log10` on one magnitude.  numpy raises no exception:
a positive argument gives a finite value (recorded here by its argument,
since log10 of a rational is irrational in general and only finiteness is
at issue), zero gives -inf, a negative argument gives NaN. -/
inductive Log10Val where
  | val (x : ℚ)
  | neginf
  | nan
deriving DecidableEq

/-- Whether a `np.log10` result is a finite number. -/
def Log10Val.isFinite : Log10Val → Bool
  | .val _ => true
  | .neginf => false
  | .nan => false

/-- Embedding of `np.log10` on one entry. -/
def np_log10 (x : ℚ) : Log10Val :=
  if 0 < x then .val x else if x = 0 then .neginf else .nan

/-- Embedding of the display step `y = np.log10(np.array(ydata))` in
`Plot2D.sheet_resistance` and `Plot2D.trace_resistance_vs_width`: the
population of derived values is mapped through `np.log10` elementwise, with
no validation performed beforehand. -/
def log10_display_transform (ydata : List ℚ) : List Log10Val :=
  ydata.map np_log10

/-- Raw (index, sheet-resistance-in-mΩ/sq) samples produced by the loop in
`Plot2D.sheet_resistance`: for each material, both extreme bulk
resistivities crossed with the per-material thickness list. -/
def sr_raw_samples (ms : List Material) : List (ℕ × ℚ) :=
  ms.flatMap (fun m =>
    [m.r_bulk.valmin, m.r_bulk.valmax].flatMap (fun br =>
      (thlist_sheet_resistance m).map (fun th => (m.index, calc_sr br th))))

/-- The per-sample unit branch of `Plot2D.sheet_resistance`: `mOhms/Sq`
keeps the value, `Ohms/Sq` divides by 1000, any other string reaches
`exit(0)` (modelled as an error carrying the exit code). -/
def sr_unit_convert (units : String) (sr : ℚ) : Except ℕ ℚ :=
  if units = "mOhms/Sq" then Except.ok sr
  else if units = "Ohms/Sq" then Except.ok (sr / 1000)
  else Except.error 0

/-- Map a fallible step over a list, stopping at the first failure (the
first loop iteration that reaches `exit(0)`). -/
def exceptMapList (f : α → Except ε β) : List α → Except ε (List β)
  | [] => Except.ok []
  | x :: xs =>
    match f x with
    | Except.error e => Except.error e
    | Except.ok y => (exceptMapList f xs).map (fun ys => y :: ys)

/-- The y-axis tick branch at the end of `Plot2D.sheet_resistance`: again
`exit(0)` on a units string outside the two recognized values. -/
def sr_ticks (units : String) : Except ℕ (List ℤ) :=
  if units = "mOhms/Sq" then Except.ok [-1, 0, 1, 2, 3, 4, 5, 6, 7, 8]
  else if units = "Ohms/Sq" then Except.ok [-3, -2, -1, 0, 1, 2, 3, 4, 5]
  else Except.error 0

/-- Observable outcome of one `Plot2D.sheet_resistance` call: a silent
early `return` (no exception, process continues), a process exit with the
given code, or a normal run appending the given scatter points. -/
inductive SRCallResult where
  | earlyReturn
  | processExit (code : ℕ)
  | plotted (points : List (ℕ × ℚ))
deriving DecidableEq

/-- Body of `Plot2D.sheet_resistance` after the one-shot `begin` block:
`return` when `mlist is None`, otherwise the sample loop (whose unit branch
can exit the process) followed by the tick branch (likewise).  `b` is the
value of the `begin` flag after the call. -/
def sr_body (units : String) (mlist : Option (List Material)) (b : Bool) :
    SRCallResult × Bool :=
  match mlist with
  | none => (.earlyReturn, b)
  | some ms =>
    match exceptMapList
        (fun p => (sr_unit_convert units p.2).map (fun y => (p.1, y)))
        (sr_raw_samples ms) with
    | .error c => (.processExit c, b)
    | .ok pts =>
      match sr_ticks units with
      | .error c => (.processExit c, b)
      | .ok _ => (.plotted pts, b)

/-- Embedding of a full `Plot2D.sheet_resistance(mlist, color, units)` call
on a chart whose `begin` flag is `b`.  When `b` is set and the units string
is outside `{mOhms/Sq, Ohms/Sq}` the begin block hits its bare `return`:
the call ends silently and `begin` stays `true`.  Otherwise the begin block
(if active) completes, clears the flag, and the body runs. -/
def Plot2D_sheet_resistance (b : Bool) (units : String)
    (mlist : Option (List Material)) : SRCallResult × Bool :=
  if b then
    if units = "mOhms/Sq" ∨ units = "Ohms/Sq" then sr_body units mlist false
    else (.earlyReturn, true)
  else sr_body units mlist false

/-- Derived trace-resistance values (in Ω) contributed by one material in
`Plot2D.trace_resistance`: both extreme bulk resistivities crossed with the
per-material thickness list. -/
def material_trace_ohms (squares : ℚ) (m : Material) : List ℚ :=
  [m.r_bulk.valmin, m.r_bulk.valmax].flatMap (fun br =>
    (thlist_trace_resistance m).map (fun th => calc_tr br th squares))

/-- The `ohms` accumulator of `Plot2D.trace_resistance`: initialized once
per call, then appended to across every material of `mlist` (never reset
between materials). -/
def trace_resistance_ohms (squares : ℚ) (mlist : List Material) : List ℚ :=
  mlist.foldl (fun acc m => acc ++ material_trace_ohms squares m) []

/-- What happens at the summary-statistics block after the material loop of
`Plot2D.trace_resistance`: on an empty `mlist` the loop variable `m` was
never bound and `m.cat` raises `NameError`; otherwise `m` holds the LAST
material, and the statistics over the accumulated `ohms` population are
printed exactly when that material's category is not metal. -/
inductive StatsOutcome where
  | nameError
  | notPrinted
  | printed (pop : List ℚ)
deriving DecidableEq

/-- The summary-statistics decision of `Plot2D.trace_resistance`. -/
def trace_resistance_summary (squares : ℚ) (mlist : List Material) : StatsOutcome :=
  match mlist.getLast? with
  | none => .nameError
  | some m =>
      if m.cat = Category.metal then .notPrinted
      else .printed (trace_resistance_ohms squares mlist)

theorem linspace_length (a b : ℚ) (n : ℕ) : (linspace a b n).length = n := by
  simp [linspace]

theorem linspace_head (a b : ℚ) (n : ℕ) (h : 1 ≤ n) :
    (linspace a b n).head? = some a := by
  obtain ⟨m, rfl⟩ : ∃ m, n = m + 1 := ⟨n - 1, by omega⟩
  simp [linspace, List.range_succ_eq_map]

theorem linspace_getLast (a b : ℚ) (n : ℕ) (h : 2 ≤ n) :
    (linspace a b n).getLast? = some b := by
  obtain ⟨m, rfl⟩ : ∃ m, n = m + 2 := ⟨n - 2, by omega⟩
  rw [linspace, List.range_succ (m + 1), List.map_append]
  simp only [List.map_cons, List.map_nil, List.getLast?_concat, Option.some.injEq]
  have hne : ((m : ℚ) + 1) ≠ 0 := by positivity
  push_cast
  have h21 : (m : ℚ) + 2 - 1 = (m : ℚ) + 1 := by ring
  rw [h21, mul_comm, mul_div_cancel_right₀ _ hne]
  ring

theorem linspace_pairwise (a b : ℚ) (n : ℕ) (h : a ≤ b) :
    (linspace a b n).Pairwise (· ≤ ·) := by
  cases n with
  | zero => simp [linspace]
  | succ m =>
    rw [linspace, List.pairwise_map]
    have hd : 0 ≤ (b - a) / ((↑(m + 1) : ℚ) - 1) := by
      apply div_nonneg (by linarith)
      push_cast
      linarith [Nat.cast_nonneg (α := ℚ) m]
    refine (List.pairwise_lt_range (m + 1)).imp ?_
    intro i j hij
    have hc : (i : ℚ) ≤ (j : ℚ) := Nat.cast_le.2 hij.le
    have key : (i : ℚ) * (b - a) / ((↑(m + 1) : ℚ) - 1) ≤
        (j : ℚ) * (b - a) / ((↑(m + 1) : ℚ) - 1) := by
      rw [mul_div_assoc, mul_div_assoc]
      exact mul_le_mul_of_nonneg_right hc hd
    linarith [key]

theorem replicate_pairwise (n : ℕ) (a : ℚ) :
    (List.replicate n a).Pairwise (· ≤ ·) := by
  induction n with
  | zero => simp
  | succ m ih =>
    rw [List.replicate_succ]
    exact List.Pairwise.cons
      (fun b hb => le_of_eq (List.eq_of_mem_replicate hb).symm) ih

theorem replicate_getLast (n : ℕ) (a : ℚ) (h : 1 ≤ n) :
    (List.replicate n a).getLast? = some a := by
  obtain ⟨m, rfl⟩ : ∃ m, n = m + 1 := ⟨n - 1, by omega⟩
  rw [List.replicate_succ', List.getLast?_concat]

/-- C1 (counterexample): the claim asserts that when a quantity's min and
max are equal, `divide_interval` returns a single-point sequence regardless
of N, and that for every N ≥ 1 the last point equals max.  Both fail on the
code: with min = max = 2 and N = 3 the result is `np.full(3, 2)`, three
points, not one; and with min = 1, max = 3, N = 1, `np.linspace` returns
`[1]`, whose last point is min, not max. -/
theorem divide_interval_counterexample :
    (divide_interval (Value.init UnitTag.micron 2 (some 2) (some 2)) 3).length ≠ 1 ∧
    (divide_interval (Value.init UnitTag.micron 1 (some 1) (some 3)) 1).getLast? ≠ some 3 := by
  constructor
  · have h : (divide_interval (Value.init UnitTag.micron 2 (some 2) (some 2)) 3).length = 3 := by
      with_unfolding_all rfl
    omega
  · have h : (divide_interval (Value.init UnitTag.micron 1 (some 1) (some 3)) 1).getLast? =
        some 1 := by
      with_unfolding_all rfl
    rw [h]
    intro hc
    have h13 : (1 : ℚ) = 3 := Option.some.inj hc
    norm_num at h13

/-- C1 (amended): for every Quantity and N ≥ 1, `divide_interval` returns
exactly N points whose first element is min; when N ≥ 2 the last element is
max; the sequence is monotonically non-decreasing whenever min ≤ max; and
when min = max it returns N copies of that value (not a single point). -/
theorem divide_interval_spec (v : Value) (num : ℕ) (h : 1 ≤ num) :
    (divide_interval v num).length = num ∧
    (divide_interval v num).head? = some v.valmin ∧
    (2 ≤ num → (divide_interval v num).getLast? = some v.valmax) ∧
    (v.valmin ≤ v.valmax → (divide_interval v num).Pairwise (· ≤ ·)) ∧
    (v.valmin = v.valmax → divide_interval v num = List.replicate num v.valmin) := by
  by_cases he : v.valmin = v.valmax
  · refine ⟨?_, ?_, ?_, ?_, ?_⟩ <;> simp only [divide_interval, if_pos he]
    · exact List.length_replicate num v.valmin
    · obtain ⟨m, rfl⟩ : ∃ m, num = m + 1 := ⟨num - 1, by omega⟩
      simp [List.replicate_succ]
    · intro _
      rw [replicate_getLast num v.valmin h, he]
    · intro _
      exact replicate_pairwise num v.valmin
    · intro _
      trivial
  · refine ⟨?_, ?_, ?_, ?_, ?_⟩ <;> simp only [divide_interval, if_neg he]
    · exact linspace_length v.valmin v.valmax num
    · exact linspace_head v.valmin v.valmax num h
    · exact fun h2 => linspace_getLast v.valmin v.valmax num h2
    · exact fun hle => linspace_pairwise v.valmin v.valmax num hle
    · exact fun heq => absurd heq he

/-- C1 (witness): the amended statement evaluated at the quantity with
min = 1, max = 3 and N = 3. -/
theorem divide_interval_spec_witness :
    1 ≤ 3 ∧
    ((divide_interval (Value.init UnitTag.micron 1 (some 1) (some 3)) 3).length = 3 ∧
     (divide_interval (Value.init UnitTag.micron 1 (some 1) (some 3)) 3).head? =
       some (Value.init UnitTag.micron 1 (some 1) (some 3)).valmin ∧
     (2 ≤ 3 → (divide_interval (Value.init UnitTag.micron 1 (some 1) (some 3)) 3).getLast? =
       some (Value.init UnitTag.micron 1 (some 1) (some 3)).valmax) ∧
     ((Value.init UnitTag.micron 1 (some 1) (some 3)).valmin ≤
        (Value.init UnitTag.micron 1 (some 1) (some 3)).valmax →
       (divide_interval (Value.init UnitTag.micron 1 (some 1) (some 3)) 3).Pairwise (· ≤ ·)) ∧
     ((Value.init UnitTag.micron 1 (some 1) (some 3)).valmin =
        (Value.init UnitTag.micron 1 (some 1) (some 3)).valmax →
       divide_interval (Value.init UnitTag.micron 1 (some 1) (some 3)) 3 =
         List.replicate 3 (Value.init UnitTag.micron 1 (some 1) (some 3)).valmin)) :=
  ⟨by norm_num, divide_interval_spec (Value.init UnitTag.micron 1 (some 1) (some 3)) 3 (by norm_num)⟩

/-- C3 (counterexample): the claim asserts every catalog Quantity satisfies
min ≤ estimate ≤ max.  The very first catalog row violates it: silver's bulk
resistivity is built from `plus_or_minus(1.60, 0.1)`, which puts
estimate = 1.6, min = 1.7, max = 1.5, so min ≤ estimate fails. -/
theorem catalog_invariant_counterexample :
    ∃ m, byname "silver" = some m ∧
      ¬ (m.r_bulk.valmin ≤ m.r_bulk.value ∧ m.r_bulk.value ≤ m.r_bulk.valmax) := by
  refine ⟨⟨Category.metal, "silver", ⟨UnitTag.uohm_cm, 1.6, 1.7, 1.5⟩,
    ⟨UnitTag.micron, 34.8, 17.4, 69.6⟩, 20⟩, by with_unfolding_all rfl, fun hc => ?_⟩
  have hle : (1.7 : ℚ) ≤ 1.6 := hc.1
  norm_num at hle

/-- C3 (amended): construction neither enforces nor normalizes the
invariant min ≤ estimate ≤ max — the three-value constructor stores its
arguments raw — and consequently the catalog contains violating
quantities: silver's bulk resistivity has estimate < min (every metal row
does, since `plus_or_minus` yields (v, v+tol, v-tol)). -/
theorem value_construction_no_normalization :
    (∀ (ut : UnitTag) (v1 v2 v3 : ℚ),
      Value.init ut v1 (some v2) (some v3) = ⟨ut, v1, v2, v3⟩) ∧
    (∃ m, byname "silver" = some m ∧ m.r_bulk.value < m.r_bulk.valmin) := by
  refine ⟨fun ut v1 v2 v3 => rfl,
    ⟨⟨Category.metal, "silver", ⟨UnitTag.uohm_cm, 1.6, 1.7, 1.5⟩,
      ⟨UnitTag.micron, 34.8, 17.4, 69.6⟩, 20⟩, by with_unfolding_all rfl, ?_⟩⟩
  show (1.6 : ℚ) < 1.7
  norm_num

/-- C4 (confirmed): for the copper worked example, bulk resistivity
1.70 µΩ·cm over thickness 34.8 µm, `calc_sr` yields exactly
10 × (1.70 / 34.8) mΩ/square (the µΩ·cm over µm unit cancellation is an
exact factor of 10 in mΩ), which is within 1% of 0.4885 mΩ/square. -/
theorem calc_sr_copper_worked_example :
    calc_sr 1.70 34.8 = 10 * (1.70 / 34.8) ∧
    |calc_sr 1.70 34.8 - 0.4885| ≤ 0.01 * 0.4885 := by
  constructor
  · norm_num [calc_sr, uohm_cm_in_ohm_m, micron_in_m, mohm_in_ohm]
  · rw [abs_le]
    constructor <;> norm_num [calc_sr, uohm_cm_in_ohm_m, micron_in_m, mohm_in_ohm]

/-- C5 (confirmed): constructing a `Value` from exactly two positional
magnitudes yields min = v1, max = v2 and estimate = (v1 + v2) / 2, for any
unit tag.  (The code does reassign `value` to `0.5 * (val1 + val2)` in this
branch, so the defect the spec suspects here is absent.) -/
theorem value_two_positional (ut : UnitTag) (v1 v2 : ℚ) :
    (Value.init ut v1 (some v2) none).valmin = v1 ∧
    (Value.init ut v1 (some v2) none).valmax = v2 ∧
    (Value.init ut v1 (some v2) none).value = (v1 + v2) / 2 := by
  refine ⟨rfl, rfl, ?_⟩
  have hv : (Value.init ut v1 (some v2) none).value = 0.5 * (v1 + v2) := rfl
  rw [hv]
  ring

/-- C9 (confirmed): building the catalog from the sample table assigns plot
index 20 to silver (first metal: 20 × the metal ordinal 1) and 21 to copper
(second metal, incremented by 1 in insertion order). -/
theorem catalog_plot_index_silver_copper :
    (byname "silver").map (fun m => m.index) = some 20 ∧
    (byname "copper").map (fun m => m.index) = some 21 := by
  decide

/-- C6 (counterexample): the claim asserts that in every population sweep,
including trace-resistance-vs-width, metals use the fixed 4-point pcb-weight
thickness set.  But `trace_resistance_vs_width` interval-samples every
material's thickness with 10 points: for catalog copper (a metal) the
selected thickness list is a 10-point linspace, not the 4-point set. -/
theorem metal_vs_width_counterexample :
    ∃ m, byname "copper" = some m ∧ m.cat = Category.metal ∧
      thlist_trace_resistance_vs_width m ≠ pcb_microns := by
  refine ⟨⟨Category.metal, "copper", ⟨UnitTag.uohm_cm, 1.7, 1.8, 1.6⟩,
    ⟨UnitTag.micron, 34.8, 17.4, 69.6⟩, 21⟩, by with_unfolding_all rfl, rfl, fun hc => ?_⟩
  have hlen := congrArg List.length hc
  have h1 : (thlist_trace_resistance_vs_width ⟨Category.metal, "copper",
      ⟨UnitTag.uohm_cm, 1.7, 1.8, 1.6⟩, ⟨UnitTag.micron, 34.8, 17.4, 69.6⟩, 21⟩).length = 10 := by
    with_unfolding_all rfl
  have h2 : pcb_microns.length = 4 := rfl
  rw [h1, h2] at hlen
  exact absurd hlen (by norm_num)

/-- C6 (amended): in the sheet-resistance, thickness, and trace-resistance
sweeps a metal's thickness samples are exactly the fixed 4-point pcb-weight
set (17.4, 34.8, 69.6, 139.2 µm); the trace-resistance-vs-width sweep has
no metal special case and interval-samples the thickness Quantity with 10
points for every category. -/
theorem metal_thickness_sampling (m : Material) (h : m.cat = Category.metal) :
    thlist_sheet_resistance m = pcb_microns ∧
    thlist_thickness m = pcb_microns ∧
    thlist_trace_resistance m = pcb_microns ∧
    thlist_trace_resistance_vs_width m = divide_interval m.thickness 10 := by
  refine ⟨?_, ?_, ?_, rfl⟩ <;>
    simp [thlist_sheet_resistance, thlist_thickness, thlist_trace_resistance, h]

/-- C6 (witness): the amended statement evaluated at catalog copper. -/
theorem metal_thickness_sampling_witness :
    (⟨Category.metal, "copper", ⟨UnitTag.uohm_cm, 1.7, 1.8, 1.6⟩,
      ⟨UnitTag.micron, 34.8, 17.4, 69.6⟩, 21⟩ : Material).cat = Category.metal ∧
    (thlist_sheet_resistance ⟨Category.metal, "copper", ⟨UnitTag.uohm_cm, 1.7, 1.8, 1.6⟩,
        ⟨UnitTag.micron, 34.8, 17.4, 69.6⟩, 21⟩ = pcb_microns ∧
     thlist_thickness ⟨Category.metal, "copper", ⟨UnitTag.uohm_cm, 1.7, 1.8, 1.6⟩,
        ⟨UnitTag.micron, 34.8, 17.4, 69.6⟩, 21⟩ = pcb_microns ∧
     thlist_trace_resistance ⟨Category.metal, "copper", ⟨UnitTag.uohm_cm, 1.7, 1.8, 1.6⟩,
        ⟨UnitTag.micron, 34.8, 17.4, 69.6⟩, 21⟩ = pcb_microns ∧
     thlist_trace_resistance_vs_width ⟨Category.metal, "copper", ⟨UnitTag.uohm_cm, 1.7, 1.8, 1.6⟩,
        ⟨UnitTag.micron, 34.8, 17.4, 69.6⟩, 21⟩ =
       divide_interval (⟨Category.metal, "copper", ⟨UnitTag.uohm_cm, 1.7, 1.8, 1.6⟩,
        ⟨UnitTag.micron, 34.8, 17.4, 69.6⟩, 21⟩ : Material).thickness 10) :=
  ⟨rfl, metal_thickness_sampling ⟨Category.metal, "copper", ⟨UnitTag.uohm_cm, 1.7, 1.8, 1.6⟩,
    ⟨UnitTag.micron, 34.8, 17.4, 69.6⟩, 21⟩ rfl⟩

/-- C2 (counterexample): the claim asserts that a units string outside
{mOhms/Sq, Ohms/Sq} raises an error and terminates the process even on the
first call to a chart instance.  On a fresh chart (begin flag set) the
begin block instead hits a bare `return`: the call ends silently with no
exception and no process exit, and the begin flag stays set. -/
theorem invalid_units_counterexample :
    Plot2D_sheet_resistance true "furlongs" (some matls) =
      (SRCallResult.earlyReturn, true) := by
  with_unfolding_all rfl

/-- C2 (amended): there is no `InvalidUnitSelectionError`; for a units
string outside {mOhms/Sq, Ohms/Sq}, a first call on a fresh chart returns
silently (nothing plotted, begin flag still set), while a call after
initialization with a non-None material list terminates the process via
`exit(0)` — exit code 0, not an exception. -/
theorem invalid_units_behavior (units : String) (h1 : units ≠ "mOhms/Sq")
    (h2 : units ≠ "Ohms/Sq") :
    (∀ mlist, Plot2D_sheet_resistance true units mlist = (SRCallResult.earlyReturn, true)) ∧
    (∀ ms, Plot2D_sheet_resistance false units (some ms) = (SRCallResult.processExit 0, false)) := by
  have hcond : ¬ (units = "mOhms/Sq" ∨ units = "Ohms/Sq") := by
    rintro (h | h)
    · exact h1 h
    · exact h2 h
  constructor
  · intro mlist
    simp [Plot2D_sheet_resistance, hcond]
  · intro ms
    have hcv : ∀ p : ℕ × ℚ,
        (sr_unit_convert units p.2).map (fun y => (p.1, y)) = Except.error 0 := by
      intro p
      simp [sr_unit_convert, h1, h2, Except.map]
    have htk : sr_ticks units = Except.error 0 := by
      simp [sr_ticks, h1, h2]
    cases hs : sr_raw_samples ms with
    | nil => simp [Plot2D_sheet_resistance, sr_body, hs, exceptMapList, htk]
    | cons x xs => simp [Plot2D_sheet_resistance, sr_body, hs, exceptMapList, hcv x]

/-- C2 (witness): the amended statement evaluated at the units string "x",
on the full catalog for the fresh-chart half and on the empty material list
for the initialized-chart half. -/
theorem invalid_units_behavior_witness :
    ("x" : String) ≠ "mOhms/Sq" ∧ ("x" : String) ≠ "Ohms/Sq" ∧
    Plot2D_sheet_resistance true "x" (some matls) = (SRCallResult.earlyReturn, true) ∧
    Plot2D_sheet_resistance false "x" (some matls) = (SRCallResult.processExit 0, false) :=
  ⟨by decide, by decide,
    (invalid_units_behavior "x" (by decide) (by decide)).1 (some matls),
    (invalid_units_behavior "x" (by decide) (by decide)).2 matls⟩

/-- C7 (confirmed): the standard deviation of the single-element population
[1.0] is undefined (Python's `statistics.stdev` raises its
insufficient-data error, the spec's `InsufficientDataError`); over
[1.0, 3.0] the mean is 2.0, the sample variance is 2 so the sample standard
deviation is sqrt 2 ≈ 1.414 (within 0.01), and min and max are 1.0 and 3.0. -/
theorem summary_stats_spec :
    stats_variance [1] = none ∧
    stats_mean [1, 3] = some 2 ∧
    stats_variance [1, 3] = some 2 ∧
    (∀ s : ℝ, is_sample_stdev [1, 3] s → |s - 1.414| ≤ 1 / 100) ∧
    py_min [1, 3] = some 1 ∧
    py_max [1, 3] = some 3 := by
  refine ⟨rfl, by with_unfolding_all rfl, by with_unfolding_all rfl, ?_,
    by with_unfolding_all rfl, by with_unfolding_all rfl⟩
  rintro s ⟨hs, v, hv, hsq⟩
  have hvv : stats_variance [1, 3] = some 2 := by with_unfolding_all rfl
  rw [hvv] at hv
  have hv2 : v = 2 := (Option.some.inj hv).symm
  rw [hv2] at hsq
  push_cast at hsq
  rw [abs_le]
  constructor <;> nlinarith [hsq, hs, sq_nonneg (s - 1.415), sq_nonneg (s + 1.413)]

/-- C7 (witness): the standard-deviation clause evaluated at the actual
sample standard deviation sqrt 2 of the population [1.0, 3.0]. -/
theorem summary_stats_spec_witness :
    is_sample_stdev [1, 3] (Real.sqrt 2) ∧ |Real.sqrt 2 - 1.414| ≤ 1 / 100 := by
  have hv : stats_variance [1, 3] = some 2 := by with_unfolding_all rfl
  have hsd : is_sample_stdev [1, 3] (Real.sqrt 2) := by
    refine ⟨Real.sqrt_nonneg 2, 2, hv, ?_⟩
    rw [Real.sq_sqrt (by norm_num : (0 : ℝ) ≤ 2)]
    norm_num
  exact ⟨hsd, summary_stats_spec.2.2.2.1 (Real.sqrt 2) hsd⟩

/-- C8 (counterexample): the claim asserts that a population containing a
zero or negative value causes an error to be raised before the log10
display transform runs.  The code has no such check: the transform runs and
produces an output list, mapping zero to -inf and a negative value to NaN
(numpy RuntimeWarnings, not exceptions). -/
theorem log10_no_rejection_counterexample :
    log10_display_transform [0] = [Log10Val.neginf] ∧
    log10_display_transform [-1] = [Log10Val.nan] := by
  constructor <;> with_unfolding_all rfl

/-- C8 (amended): the pipeline performs no positivity validation and raises
nothing: a nonpositive value in the population reaches `np.log10`, the
transform still produces an output of the same length, and the entry for
that value is a non-finite marker (-inf for zero, NaN for negative) handed
on to the renderer. -/
theorem log10_no_rejection (ydata : List ℚ) (y : ℚ) (hy : y ∈ ydata) (hle : y ≤ 0) :
    (log10_display_transform ydata).length = ydata.length ∧
    np_log10 y ∈ log10_display_transform ydata ∧
    (np_log10 y).isFinite = false := by
  refine ⟨List.length_map ydata np_log10, List.mem_map_of_mem np_log10 hy, ?_⟩
  by_cases h0 : y = 0
  · rw [np_log10, if_neg (by rw [h0]; exact lt_irrefl 0), if_pos h0]
    rfl
  · rw [np_log10, if_neg (not_lt.2 hle), if_neg h0]
    rfl

/-- C8 (witness): the amended statement evaluated at the population [0]
containing the zero value. -/
theorem log10_no_rejection_witness :
    (0 : ℚ) ∈ [(0 : ℚ)] ∧ (0 : ℚ) ≤ 0 ∧
    ((log10_display_transform [0]).length = ([(0 : ℚ)]).length ∧
     np_log10 0 ∈ log10_display_transform [0] ∧
     (np_log10 0).isFinite = false) :=
  ⟨List.mem_singleton.2 rfl, le_refl 0,
    log10_no_rejection [0] 0 (List.mem_singleton.2 rfl) (le_refl 0)⟩

theorem foldl_append_eq_flatMap (f : Material → List ℚ) (l : List Material) (acc : List ℚ) :
    l.foldl (fun a m => a ++ f m) acc = acc ++ l.flatMap f := by
  induction l generalizing acc with
  | nil => simp
  | cons x xs ih => simp [ih, List.flatMap]

/-- C10 (confirmed): in `Plot2D.trace_resistance` the `ohms` population
accumulates the derived values of every material of the call's list
argument in order (it is initialized once per call and never reset between
materials), and the summary statistics over that population are computed
and printed exactly when the list has a last material whose category is not
metal (on an empty list the loop variable is unbound and the category test
itself raises `NameError`, so no statistics are printed then either). -/
theorem trace_resistance_accumulation (squares : ℚ) (mlist : List Material) :
    trace_resistance_ohms squares mlist = mlist.flatMap (material_trace_ohms squares) ∧
    (trace_resistance_summary squares mlist =
        StatsOutcome.printed (mlist.flatMap (material_trace_ohms squares)) ↔
      ∃ m, mlist.getLast? = some m ∧ m.cat ≠ Category.metal) := by
  have hacc : trace_resistance_ohms squares mlist =
      mlist.flatMap (material_trace_ohms squares) := by
    rw [trace_resistance_ohms, foldl_append_eq_flatMap]
    simp
  refine ⟨hacc, ?_⟩
  simp only [trace_resistance_summary]
  cases hl : mlist.getLast? with
  | none => simp
  | some m =>
    by_cases hm : m.cat = Category.metal
    · simp [hm]
    · simp [hm, hacc]
